import Mathlib

/-!
Shallow embedding of the SkillSpring skill-assessment module
(`app/assessments/assess.py` and `app/assessments/models.py`).

Python floats are modelled as exact rationals (all formulas in the module
are short linear combinations with clamping, so no rounding subtlety is
load-bearing for the stated properties).  External collaborators — the
radon maintainability estimator and complexity visitors, the Python `ast`
parser, and the optional OpenAI client — are modelled as abstract inputs
bundled in an `AssessEnv`: each is an `Option` whose `none` stands for the
collaborator raising an exception inside the corresponding `try` block.
Python strings are modelled over their character lists; `str.strip` is
modelled for ASCII whitespace, which covers every literal appearing in
this development.
-/

namespace SkillSpring

/-- Model of Python `str.split('\n')` on a character list: accumulates the
current line and starts a new one at each newline.  Always returns at least
one (possibly empty) line, exactly like `split`. -/
def splitLinesAux : List Char → List Char → List (List Char)
  | [], acc => [acc.reverse]
  | c :: cs, acc =>
    if c = '\n' then acc.reverse :: splitLinesAux cs [] else splitLinesAux cs (c :: acc)

/-- Lines of a code string, as Python's `code.split('\n')` produces them. -/
def pyLines (code : String) : List (List Char) := splitLinesAux code.data []

/-- Model of Python `str.strip()` (ASCII whitespace). -/
def pyStrip (l : List Char) : List Char :=
  ((l.dropWhile Char.isWhitespace).reverse.dropWhile Char.isWhitespace).reverse

/-- Model of Python `str.startswith(p)` on character lists. -/
def pyStartsWith (l p : List Char) : Bool := l.take p.length == p

/-- Model of Python `str.lower()` (ASCII case folding). -/
def pyLowerStr (s : String) : String := String.mk (s.data.map Char.toLower)

/-- Helper for `pyTitleStr`: the Boolean records whether the previous
character was alphabetic. -/
def pyTitleAux : List Char → Bool → List Char
  | [], _ => []
  | c :: cs, prevAlpha =>
    (if c.isAlpha then (if prevAlpha then c.toLower else c.toUpper) else c)
      :: pyTitleAux cs c.isAlpha

/-- Model of Python `str.title()` (ASCII): the first letter of every
alphabetic run is upper-cased, the rest lower-cased. -/
def pyTitleStr (s : String) : String := String.mk (pyTitleAux s.data false)

/-- The `SkillLevel` enumeration of `models.py`. -/
inductive SkillLevel where
  | BEGINNER
  | INTERMEDIATE
  | ADVANCED
  | EXPERT
deriving DecidableEq, Repr

/-- The `CodeQualityMetric` enumeration of `models.py`. -/
inductive CodeQualityMetric where
  | COMPLEXITY
  | DUPLICATION
  | MAINTAINABILITY
  | SECURITY
  | TEST_COVERAGE
deriving DecidableEq, Repr

/-- The `SkillAssessment` dataclass of `models.py` (the `timestamp` field,
a wall-clock default, is outside the embedding). -/
structure SkillAssessment where
  user_id : String
  skill_name : String
  level : SkillLevel
  score : ℚ
  feedback : List String
  recommendations : List String
deriving DecidableEq, Repr

/-- The `CodeQualityMetrics` dataclass of `models.py`; the `metrics` dict
is modelled as an association list (the `timestamp` field is outside the
embedding, and `issues` entries are kept abstract as strings). -/
structure CodeQualityMetrics where
  file_path : String
  metrics : List (CodeQualityMetric × ℚ)
  issues : List String
deriving DecidableEq, Repr

/-- `CodeQualityMetrics.get_overall_score`: `0.0` on an empty metrics dict,
otherwise `sum(self.metrics.values()) / len(self.metrics)`. -/
def CodeQualityMetrics.get_overall_score (self : CodeQualityMetrics) : ℚ :=
  if self.metrics = [] then 0
  else (self.metrics.map Prod.snd).sum / (self.metrics.length : ℚ)

/-- The quality-metrics dict built by `_get_code_quality_metrics`: either
empty (all fields `none`) or carrying the three keys
`maintainability`, `readability`, `modularity`.  A `none` field models the
key being absent, so `Option.getD` models Python's `dict.get(key, default)`. -/
structure MetricsDict where
  maintainability : Option ℚ
  readability : Option ℚ
  modularity : Option ℚ
deriving DecidableEq, Repr

/-- Abstract result of the Python parse used by `_calculate_modularity`:
one entry per `ast.FunctionDef`, giving `len(ast.unparse(f).split('\n'))`
for that function.  (The `classes` list computed in the source is never
used, so it is not modelled.) -/
structure ParseInfo where
  funcSizes : List ℕ
deriving DecidableEq, Repr

/-- What `json.loads(response.output_text)` yields in `_get_ai_feedback`
when the client call itself succeeds. -/
inductive ClientResponse where
  /-- the response text is not valid JSON: `json.loads` raises. -/
  | parseError
  /-- a JSON object; only the two keys read downstream are modelled, each
  `none` when absent.  (Dict truthiness never changes the outcome: an empty
  dict is falsy and yields `[]`, which equals `.get` with both keys absent.) -/
  | jsonDict (feedback : Option (List String)) (recommendations : Option (List String))
  /-- valid JSON that is not an object, tagged with its Python truthiness
  (e.g. a nonempty string or list is truthy; `null`, `[]`, `""`, `0` are falsy). -/
  | jsonNonDict (truthy : Bool)
deriving DecidableEq, Repr

/-- Behaviour of a supplied feedback collaborator (the OpenAI client):
either `responses.create` raises, or it returns a response whose parsed
output is a `ClientResponse`. -/
inductive ClientBehavior where
  | raises
  | returns (r : ClientResponse)
deriving DecidableEq, Repr

/-- Value of the `ai_feedback` local in `assess_skills`: either a dict
(with the two relevant keys optional) or a non-dict JSON value tagged with
its truthiness. -/
inductive AiFeedbackValue where
  | dict (feedback : Option (List String)) (recommendations : Option (List String))
  | nonDict (truthy : Bool)
deriving DecidableEq, Repr

/-- Environment of external-collaborator outcomes for one `assess_skills`
call.  Each `none` models the collaborator raising inside its `try`. -/
structure AssessEnv where
  /-- the pair (cyclomatic, cognitive) produced by the radon visitors. -/
  cc : Option (ℚ × ℚ)
  /-- what the expression `mi_visit(code, multi=True)[0]` evaluates to. -/
  mi : Option ℚ
  /-- the `ast.parse` result for Python code. -/
  pyParse : Option ParseInfo
  /-- the feedback collaborator; `none` models `client is None`. -/
  client : Option ClientBehavior
deriving DecidableEq, Repr

/-- `SkillAssessor._calculate_complexity`: non-Python languages get
`{cyclomatic: 0, cognitive: 0}`; for Python the radon visitors' outcome is
taken from the environment, with the bare `except` mapping any raise to the
same zero pair. -/
def calculate_complexity (code language : String) (cc : Option (ℚ × ℚ)) : ℚ × ℚ :=
  if pyLowerStr language ≠ "python" then (0, 0)
  else
    match cc with
    | none => (0, 0)
    | some c => c

/-- `SkillAssessor._calculate_readability`: a weighted blend of an average
line-length score and a comment-line score.  The Python body sits in a
`try`, but every operation in it is total on strings, so the `except`
branch is unreachable and not modelled. -/
def calculate_readability (code language : String) : ℚ :=
  let lines := pyLines code
  let avg_line_length : ℚ :=
    ((lines.map List.length).sum : ℕ) / ((max 1 lines.length : ℕ) : ℚ)
  let line_length_score : ℚ := max 0 (1 - avg_line_length / 100)
  let comment_share : ℚ :=
    ((lines.filter (fun l => pyStartsWith (pyStrip l) ['#'])).length : ℕ)
      / ((max 1 lines.length : ℕ) : ℚ)
  let comment_score : ℚ := min 1 (comment_share * 3)
  line_length_score * 0.6 + comment_score * 0.4

/-- `SkillAssessor._calculate_modularity`: for Python, a blend of a
function-count score and an average-function-size score over the parse
result; `0.5` for non-Python languages and on parse failure.  The
`total_lines == 0` guard of the source is kept even though `split` never
returns an empty list. -/
def calculate_modularity (code language : String) (pyParse : Option ParseInfo) : ℚ :=
  if pyLowerStr language = "python" then
    match pyParse with
    | none => 0.5
    | some p =>
      let total_lines := (pyLines code).length
      if total_lines = 0 then 0.5
      else
        let func_count := p.funcSizes.length
        let avg_func_size : ℚ :=
          (p.funcSizes.sum : ℕ) / ((max 1 func_count : ℕ) : ℚ)
        let func_count_score : ℚ := min 1 ((func_count : ℚ) / 10)
        let size_score : ℚ := max 0 (1 - avg_func_size / 50)
        func_count_score * 0.4 + size_score * 0.6
  else 0.5

/-- `SkillAssessor._get_code_quality_metrics`: empty dict when the stripped
code is empty, otherwise maintainability (estimator outcome, default 50.0
on a raise), readability and modularity. -/
def get_code_quality_metrics (code language : String) (mi : Option ℚ)
    (pyParse : Option ParseInfo) : MetricsDict :=
  if pyStrip code.data = [] then ⟨none, none, none⟩
  else
    ⟨some (mi.getD 50),
     some (calculate_readability code language),
     some (calculate_modularity code language pyParse)⟩

/-- The canned 5-item feedback list returned when no client is available. -/
def sample_feedback_list : List String :=
  ["The code structure is well-organized with clear function definitions.",
   "Good use of variable naming conventions that enhance code readability.",
   "Could benefit from additional error handling for edge cases.",
   "Consider adding more inline comments to explain complex logic.",
   "The code follows good practices for the most part."]

/-- The canned 3-item recommendation list returned when no client is available. -/
def sample_recommendations_list : List String :=
  ["Add docstrings to functions and classes for better documentation.",
   "Consider breaking down larger functions into smaller, more focused ones.",
   "Implement input validation for better error handling."]

/-- The fallback feedback list used when the client's response is not valid
JSON (the source concatenates the string from two literals). -/
def invalid_json_feedback_list : List String :=
  ["Code analysis complete. " ++
     "Consider implementing more robust error handling and documentation."]

/-- The fallback recommendation list used when the client's response is not
valid JSON. -/
def invalid_json_recommendations_list : List String :=
  ["Add more comments to explain complex logic",
   "Consider breaking down larger functions into smaller, more focused ones"]

/-- The fallback feedback list used when the client call raises (the source
concatenates the string from two literals). -/
def error_feedback_list : List String :=
  ["Error generating feedback. " ++
     "The code appears to be syntactically correct."]

/-- The fallback recommendation list used when the client call raises. -/
def error_recommendations_list : List String :=
  ["Review the code for potential improvements",
   "Consider adding more error handling"]

/-- `SkillAssessor._get_ai_feedback`: canned sample pair when no client is
supplied; the error fallback when the client call raises; the
invalid-JSON fallback when `json.loads` raises; otherwise the parsed JSON
value itself, whether or not it is a dict. -/
def get_ai_feedback (client : Option ClientBehavior) : AiFeedbackValue :=
  match client with
  | none => .dict (some sample_feedback_list) (some sample_recommendations_list)
  | some .raises =>
      .dict (some error_feedback_list) (some error_recommendations_list)
  | some (.returns .parseError) =>
      .dict (some invalid_json_feedback_list) (some invalid_json_recommendations_list)
  | some (.returns (.jsonDict fb recs)) => .dict fb recs
  | some (.returns (.jsonNonDict truthy)) => .nonDict truthy

/-- `SkillAssessor._determine_skill_level`: a step function of the
composite of maintainability (dict default 0) and readability (dict default
0.5); the `complexity` and `ai_feedback` arguments are taken but unused,
as in the source. -/
def determine_skill_level (complexity : ℚ × ℚ) (metrics : MetricsDict)
    (ai_feedback : AiFeedbackValue) : SkillLevel :=
  let maintainability := metrics.maintainability.getD 0
  let readability := metrics.readability.getD 0.5
  let composite_score := maintainability / 100 * 0.6 + readability * 0.4
  if composite_score > 0.8 then .EXPERT
  else if composite_score > 0.6 then .ADVANCED
  else if composite_score > 0.4 then .INTERMEDIATE
  else .BEGINNER

/-- The `base_scores` table of `_calculate_skill_score`. -/
def base_scores : SkillLevel → ℚ
  | .BEGINNER => 0.3
  | .INTERMEDIATE => 0.5
  | .ADVANCED => 0.75
  | .EXPERT => 0.9

/-- `SkillAssessor._calculate_skill_score`: weighted blend of the level's
base score with maintainability (dict default 50, normalised to 0-1) and
readability (dict default 0.5). -/
def calculate_skill_score (level : SkillLevel) (metrics : MetricsDict) : ℚ :=
  let maintainability := metrics.maintainability.getD 50 / 100
  let readability := metrics.readability.getD 0.5
  base_scores level * 0.6 + maintainability * 0.2 + readability * 0.2

/-- `SkillAssessor.assess_skills`.  The construction of the returned
`SkillAssessment` evaluates `ai_feedback.get("feedback", []) if ai_feedback
else []` outside any `try`: when `ai_feedback` is a truthy non-dict JSON
value, the attribute lookup `.get` raises an `AttributeError` that
propagates out of `assess_skills`, modelled as `Except.error`; a falsy
value short-circuits to `[]`. -/
def assess_skills (code language : String) (env : AssessEnv) :
    Except String SkillAssessment :=
  let complexity := calculate_complexity code language env.cc
  let quality_metrics := get_code_quality_metrics code language env.mi env.pyParse
  let ai_feedback := get_ai_feedback env.client
  let skill_level := determine_skill_level complexity quality_metrics ai_feedback
  match ai_feedback with
  | .nonDict true => .error "AttributeError"
  | .nonDict false =>
      .ok ⟨"current_user", pyTitleStr language ++ " Programming", skill_level,
           calculate_skill_score skill_level quality_metrics, [], []⟩
  | .dict fb recs =>
      .ok ⟨"current_user", pyTitleStr language ++ " Programming", skill_level,
           calculate_skill_score skill_level quality_metrics,
           fb.getD [], recs.getD []⟩

/-- Reading of the spec's readability formula, parameterised by the comment
marker whose occurrence at the start of a stripped line counts the line as
a comment: `0.6 * max(0, 1 - avgLineLength/100) + 0.4 * min(1,
commentLineRatio*3)` with the line-count denominator floored at 1. -/
def readabilitySpec (marker : List Char) (code : String) : ℚ :=
  let lines := pyLines code
  let avg_line_length : ℚ :=
    ((lines.map List.length).sum : ℕ) / ((max 1 lines.length : ℕ) : ℚ)
  let line_length_score : ℚ := max 0 (1 - avg_line_length / 100)
  let comment_share : ℚ :=
    ((lines.filter (fun l => pyStartsWith (pyStrip l) marker)).length : ℕ)
      / ((max 1 lines.length : ℕ) : ℚ)
  let comment_score : ℚ := min 1 (comment_share * 3)
  line_length_score * 0.6 + comment_score * 0.4

/-- The claim's phrase "the given language's comment marker", rendered for
the two languages this development exercises: `#` for Python and `//` for
JavaScript (JavaScript's line comments start with `//`, not `#`). -/
def languageCommentMarker (language : String) : List Char :=
  if pyLowerStr language = "javascript" then ['/', '/'] else ['#']

/-- Reading of the spec's level step function: thresholds 0.8 / 0.6 / 0.4,
all exclusive. -/
def levelOfComposite (c : ℚ) : SkillLevel :=
  if c > 0.8 then .EXPERT
  else if c > 0.6 then .ADVANCED
  else if c > 0.4 then .INTERMEDIATE
  else .BEGINNER

/-- Reading of the spec's modularity formula over the abstract parse
outcome: `0.4 * min(1, functionCount/10) + 0.6 * max(0, 1 -
avgFunctionBodyLines/50)` with the function-count denominator floored at 1. -/
def modularitySpec (funcSizes : List ℕ) : ℚ :=
  0.4 * min 1 ((funcSizes.length : ℚ) / 10)
    + 0.6 * max 0 (1 - ((funcSizes.sum : ℕ) / ((max 1 funcSizes.length : ℕ) : ℚ)) / 50)

/-- Arithmetic mean of a list of rationals (the spec reading of
`get_overall_score` on a nonempty dict). -/
def meanOfValues (l : List ℚ) : ℚ := l.sum / (l.length : ℚ)

/-! ## Helper lemmas -/

lemma splitLinesAux_ne_nil (l acc : List Char) : splitLinesAux l acc ≠ [] := by
  induction l generalizing acc with
  | nil => simp [splitLinesAux]
  | cons c cs ih =>
    rw [splitLinesAux]
    by_cases hc : c = '\n'
    · rw [if_pos hc]; simp
    · rw [if_neg hc]; exact ih _

lemma pyLines_length_ne_zero (code : String) : (pyLines code).length ≠ 0 := by
  intro h
  exact splitLinesAux_ne_nil code.data [] (List.length_eq_zero.mp h)

/-- Closed form of `calculate_readability` once the line count, total line
length and comment-line count of the input are known. -/
lemma calculate_readability_eval (code lang : String) (n s c : ℕ)
    (hn : (pyLines code).length = n)
    (hs : ((pyLines code).map List.length).sum = s)
    (hc : ((pyLines code).filter (fun l => pyStartsWith (pyStrip l) ['#'])).length = c) :
    calculate_readability code lang =
      max 0 (1 - ((s : ℚ) / ((max 1 n : ℕ) : ℚ)) / 100) * 0.6
        + min 1 ((c : ℚ) / ((max 1 n : ℕ) : ℚ) * 3) * 0.4 := by
  rw [calculate_readability, hn, hs, hc]

/-- Closed form of `readabilitySpec` once the line count, total line length
and marker-line count of the input are known. -/
lemma readabilitySpec_eval (marker : List Char) (code : String) (n s c : ℕ)
    (hn : (pyLines code).length = n)
    (hs : ((pyLines code).map List.length).sum = s)
    (hc : ((pyLines code).filter (fun l => pyStartsWith (pyStrip l) marker)).length = c) :
    readabilitySpec marker code =
      max 0 (1 - ((s : ℚ) / ((max 1 n : ℕ) : ℚ)) / 100) * 0.6
        + min 1 ((c : ℚ) / ((max 1 n : ℕ) : ℚ) * 3) * 0.4 := by
  rw [readabilitySpec, hn, hs, hc]

lemma calculate_readability_mem (code lang : String) :
    0 ≤ calculate_readability code lang ∧ calculate_readability code lang ≤ 1 := by
  rw [calculate_readability]
  have hN : (1 : ℚ) ≤ ((max 1 (pyLines code).length : ℕ) : ℚ) := by
    exact_mod_cast le_max_left 1 (pyLines code).length
  have hs : (0 : ℚ) ≤ (((pyLines code).map List.length).sum : ℕ) := Nat.cast_nonneg _
  have hcnt : (0 : ℚ) ≤
      (((pyLines code).filter (fun l => pyStartsWith (pyStrip l) ['#'])).length : ℕ) :=
    Nat.cast_nonneg _
  have hdiv1 : (0 : ℚ) ≤ ((((pyLines code).map List.length).sum : ℕ) : ℚ)
      / ((max 1 (pyLines code).length : ℕ) : ℚ) / 100 :=
    div_nonneg (div_nonneg hs (by linarith)) (by norm_num)
  have hdiv2 : (0 : ℚ) ≤
      ((((pyLines code).filter (fun l => pyStartsWith (pyStrip l) ['#'])).length : ℕ) : ℚ)
        / ((max 1 (pyLines code).length : ℕ) : ℚ) * 3 :=
    mul_nonneg (div_nonneg hcnt (by linarith)) (by norm_num)
  have h1a : (0 : ℚ) ≤ max 0 (1 - (((pyLines code).map List.length).sum : ℕ)
      / ((max 1 (pyLines code).length : ℕ) : ℚ) / 100) := le_max_left _ _
  have h1b : max (0 : ℚ) (1 - (((pyLines code).map List.length).sum : ℕ)
      / ((max 1 (pyLines code).length : ℕ) : ℚ) / 100) ≤ 1 :=
    max_le (by norm_num) (by linarith)
  have h2a : (0 : ℚ) ≤ min 1
      ((((pyLines code).filter (fun l => pyStartsWith (pyStrip l) ['#'])).length : ℕ)
        / ((max 1 (pyLines code).length : ℕ) : ℚ) * 3) :=
    le_min (by norm_num) hdiv2
  have h2b : min (1 : ℚ)
      ((((pyLines code).filter (fun l => pyStartsWith (pyStrip l) ['#'])).length : ℕ)
        / ((max 1 (pyLines code).length : ℕ) : ℚ) * 3) ≤ 1 := min_le_left _ _
  constructor
  · nlinarith
  · nlinarith

lemma calculate_skill_score_mem (level : SkillLevel) (md : MetricsDict)
    (hm : 0 ≤ md.maintainability.getD 50 ∧ md.maintainability.getD 50 ≤ 100)
    (hr : 0 ≤ md.readability.getD 0.5 ∧ md.readability.getD 0.5 ≤ 1) :
    0 ≤ calculate_skill_score level md ∧ calculate_skill_score level md ≤ 1 := by
  rw [calculate_skill_score]
  have hb : 0.3 ≤ base_scores level ∧ base_scores level ≤ 0.9 := by
    cases level <;> norm_num [base_scores]
  obtain ⟨hm0, hm1⟩ := hm
  obtain ⟨hr0, hr1⟩ := hr
  obtain ⟨hb0, hb1⟩ := hb
  constructor
  · nlinarith
  · nlinarith

/-- When the `ai_feedback` value is a dict, `assess_skills` succeeds and
returns the record built from its components. -/
lemma assess_skills_eq_of_dict (code language : String) (env : AssessEnv)
    (fb recs : Option (List String))
    (h : get_ai_feedback env.client = .dict fb recs) :
    assess_skills code language env = Except.ok
      ⟨"current_user", pyTitleStr language ++ " Programming",
       determine_skill_level (calculate_complexity code language env.cc)
         (get_code_quality_metrics code language env.mi env.pyParse) (.dict fb recs),
       calculate_skill_score
         (determine_skill_level (calculate_complexity code language env.cc)
           (get_code_quality_metrics code language env.mi env.pyParse) (.dict fb recs))
         (get_code_quality_metrics code language env.mi env.pyParse),
       fb.getD [], recs.getD []⟩ := by
  simp only [assess_skills, h]

/-- When the `ai_feedback` value is a falsy non-dict, `assess_skills` still
succeeds, with empty feedback and recommendation lists. -/
lemma assess_skills_eq_of_falsy (code language : String) (env : AssessEnv)
    (h : get_ai_feedback env.client = .nonDict false) :
    assess_skills code language env = Except.ok
      ⟨"current_user", pyTitleStr language ++ " Programming",
       determine_skill_level (calculate_complexity code language env.cc)
         (get_code_quality_metrics code language env.mi env.pyParse) (.nonDict false),
       calculate_skill_score
         (determine_skill_level (calculate_complexity code language env.cc)
           (get_code_quality_metrics code language env.mi env.pyParse) (.nonDict false))
         (get_code_quality_metrics code language env.mi env.pyParse),
       [], []⟩ := by
  simp only [assess_skills, h]

/-- Every successful `assess_skills` result carries the level of the
level-determination step and the score computed from that level and the
quality-metrics dict. -/
lemma assess_skills_ok_fields (code language : String) (env : AssessEnv)
    (a : SkillAssessment) (h : assess_skills code language env = Except.ok a) :
    a.level = determine_skill_level (calculate_complexity code language env.cc)
        (get_code_quality_metrics code language env.mi env.pyParse)
        (get_ai_feedback env.client)
      ∧ a.score = calculate_skill_score a.level
        (get_code_quality_metrics code language env.mi env.pyParse) := by
  rcases hfb : get_ai_feedback env.client with ⟨fb, recs⟩ | t
  · rw [assess_skills_eq_of_dict code language env fb recs hfb] at h
    cases h
    exact ⟨rfl, rfl⟩
  · cases t
    · rw [assess_skills_eq_of_falsy code language env hfb] at h
      cases h
      exact ⟨rfl, rfl⟩
    · simp only [assess_skills, hfb] at h
      exact Except.noConfusion h

/-- A non-dict `ai_feedback` value can only come from a client whose
response parsed as non-object JSON. -/
lemma get_ai_feedback_nonDict (c : Option ClientBehavior) (t : Bool)
    (h : get_ai_feedback c = .nonDict t) :
    c = some (.returns (.jsonNonDict t)) := by
  cases c with
  | none => simp [get_ai_feedback] at h
  | some b =>
    cases b with
    | raises => simp [get_ai_feedback] at h
    | returns r =>
      cases r with
      | parseError => simp [get_ai_feedback] at h
      | jsonDict fb recs => simp [get_ai_feedback] at h
      | jsonNonDict t' =>
        simp only [get_ai_feedback] at h
        injection h with ht
        rw [ht]

/-! ## Claim theorems -/

/-- Claim C1: for every code string and language string, and for collaborator
outcomes in which the maintainability estimator's value — when one is
produced — lies on its documented [0,100] scale, the Assessment returned
by `assess_skills` has score in the closed interval [0,1]. -/
theorem assess_score_in_unit_interval (code language : String) (env : AssessEnv)
    (hmi : ∀ v, env.mi = some v → 0 ≤ v ∧ v ≤ 100)
    (a : SkillAssessment) (h : assess_skills code language env = Except.ok a) :
    0 ≤ a.score ∧ a.score ≤ 1 := by
  obtain ⟨-, hscore⟩ := assess_skills_ok_fields code language env a h
  rw [hscore]
  apply calculate_skill_score_mem
  · by_cases hc : pyStrip code.data = []
    · rw [get_code_quality_metrics, if_pos hc]
      norm_num
    · rw [get_code_quality_metrics, if_neg hc]
      cases hv : env.mi with
      | none => norm_num
      | some v =>
        obtain ⟨h0, h1⟩ := hmi v hv
        simp only [Option.getD_some]
        exact ⟨h0, h1⟩
  · by_cases hc : pyStrip code.data = []
    · rw [get_code_quality_metrics, if_pos hc]
      norm_num
    · rw [get_code_quality_metrics, if_neg hc]
      simp only [Option.getD_some]
      exact calculate_readability_mem code language

/-- Witness for C1 at a concrete input. -/
theorem assess_score_in_unit_interval_witness :
    ∃ a, assess_skills "x = 1" "python" ⟨none, some 60, none, none⟩ = Except.ok a
      ∧ 0 ≤ a.score ∧ a.score ≤ 1 := by
  have h := assess_skills_eq_of_dict "x = 1" "python" ⟨none, some 60, none, none⟩
    (some sample_feedback_list) (some sample_recommendations_list) rfl
  refine ⟨_, h, assess_score_in_unit_interval "x = 1" "python" _ ?_ _ h⟩
  intro v hv
  cases hv
  norm_num

/-- Claim C3: the skill level is the step function of the composite
`0.6*(maintainability/100) + 0.4*readability` with exclusive thresholds
0.8 / 0.6 / 0.4, and a composite of exactly 0.6 yields Intermediate,
not Advanced. -/
theorem skill_level_step_function :
    (∀ (cc : ℚ × ℚ) (fb : AiFeedbackValue) (m r : ℚ) (mo : Option ℚ),
      determine_skill_level cc ⟨some m, some r, mo⟩ fb
        = levelOfComposite (0.6 * (m / 100) + 0.4 * r))
    ∧ levelOfComposite 0.6 ≠ SkillLevel.ADVANCED
    ∧ determine_skill_level (0, 0) ⟨some 100, some 0, none⟩ (.dict none none)
        = SkillLevel.INTERMEDIATE := by
  refine ⟨fun cc fb m r mo => ?_, ?_, ?_⟩
  · simp only [determine_skill_level, levelOfComposite, Option.getD_some]
    simp only [show m / 100 * 0.6 + r * 0.4 = 0.6 * (m / 100) + 0.4 * r from by ring]
  · have hlv : levelOfComposite 0.6 = SkillLevel.INTERMEDIATE := by
      norm_num [levelOfComposite]
    rw [hlv]
    decide
  · norm_num [determine_skill_level]

/-- Claim C5: the returned score is
`0.6*baseScoreForLevel + 0.2*(maintainability/100) + 0.2*readability`, the
base scores are 0.3 / 0.5 / 0.75 / 0.9, and in `assess_skills` the level
that keys the base score is exactly the one produced by the
level-determination step. -/
theorem skill_score_formula :
    (∀ (level : SkillLevel) (m r : ℚ) (mo : Option ℚ),
      calculate_skill_score level ⟨some m, some r, mo⟩
        = 0.6 * base_scores level + 0.2 * (m / 100) + 0.2 * r)
    ∧ (base_scores .BEGINNER = 0.3 ∧ base_scores .INTERMEDIATE = 0.5
        ∧ base_scores .ADVANCED = 0.75 ∧ base_scores .EXPERT = 0.9)
    ∧ (∀ (code language : String) (env : AssessEnv) (a : SkillAssessment),
        assess_skills code language env = Except.ok a →
          a.level = determine_skill_level (calculate_complexity code language env.cc)
              (get_code_quality_metrics code language env.mi env.pyParse)
              (get_ai_feedback env.client)
          ∧ a.score = calculate_skill_score a.level
              (get_code_quality_metrics code language env.mi env.pyParse)) := by
  refine ⟨fun level m r mo => ?_, ⟨by norm_num [base_scores], by norm_num [base_scores],
      by norm_num [base_scores], by norm_num [base_scores]⟩,
    fun code language env a h => assess_skills_ok_fields code language env a h⟩
  simp only [calculate_skill_score, Option.getD_some]
  ring

/-- Witness for C5 at a concrete input. -/
theorem skill_score_formula_witness :
    ∃ a, assess_skills "y = 2" "python" ⟨none, some 80, none, none⟩ = Except.ok a
      ∧ a.level = determine_skill_level (calculate_complexity "y = 2" "python" none)
          (get_code_quality_metrics "y = 2" "python" (some 80) none)
          (get_ai_feedback none)
      ∧ a.score = calculate_skill_score a.level
          (get_code_quality_metrics "y = 2" "python" (some 80) none) := by
  have h := assess_skills_eq_of_dict "y = 2" "python" ⟨none, some 80, none, none⟩
    (some sample_feedback_list) (some sample_recommendations_list) rfl
  obtain ⟨h1, h2⟩ := skill_score_formula.2.2 "y = 2" "python" ⟨none, some 80, none, none⟩ _ h
  exact ⟨_, h, h1, h2⟩

/-- Claim C10: `get_overall_score` is 0.0 on an empty metrics mapping and the
arithmetic mean of the mapping's values otherwise. -/
theorem overall_score_spec :
    (∀ (fp : String) (iss : List String),
      CodeQualityMetrics.get_overall_score ⟨fp, [], iss⟩ = 0)
    ∧ (∀ (fp : String) (ms : List (CodeQualityMetric × ℚ)) (iss : List String),
        ms ≠ [] → CodeQualityMetrics.get_overall_score ⟨fp, ms, iss⟩
          = meanOfValues (ms.map Prod.snd)) := by
  constructor
  · intro fp iss
    rw [CodeQualityMetrics.get_overall_score]
    simp
  · intro fp ms iss h
    rw [CodeQualityMetrics.get_overall_score, if_neg h, meanOfValues, List.length_map]

/-- Witness for C10 at a concrete two-entry mapping. -/
theorem overall_score_spec_witness :
    ([((CodeQualityMetric.MAINTAINABILITY : CodeQualityMetric), (70 : ℚ)),
        (CodeQualityMetric.COMPLEXITY, 2)] ≠ ([] : List (CodeQualityMetric × ℚ)))
    ∧ CodeQualityMetrics.get_overall_score
        ⟨"inline_code",
         [(CodeQualityMetric.MAINTAINABILITY, 70), (CodeQualityMetric.COMPLEXITY, 2)], []⟩
        = meanOfValues [(70 : ℚ), 2] := by
  refine ⟨List.cons_ne_nil _ _, ?_⟩
  rw [overall_score_spec.2 "inline_code" _ [] (List.cons_ne_nil _ _)]
  rfl

/-- Claim C2 counterexample: on the empty code string the quality-metrics
mapping is empty — it contains no maintainability entry (so no
"maintainability metric defaulting to 50.0" is yielded, whatever the
estimator produced) — and the code has one (empty) line, not zero lines,
so no readability metric "computed over zero lines" exists either. -/
theorem empty_code_metrics_cex :
    (get_code_quality_metrics "" "python" (some 77) none).maintainability ≠ some 50
    ∧ get_code_quality_metrics "" "python" (some 77) none = ⟨none, none, none⟩
    ∧ (pyLines "").length = 1 := by
  refine ⟨?_, ?_, by decide⟩
  · rw [get_code_quality_metrics, if_pos (by decide)]
    simp
  · rw [get_code_quality_metrics, if_pos (by decide)]

/-- Claim C2 amended: `assess_skills` on the empty code string computes no
metrics at all (the mapping is empty); downstream the score step
substitutes maintainability 50.0 and readability 0.5, giving score 0.38
and level Beginner, with no divide-by-zero raised; and
`_calculate_readability` itself, applied to the empty string, operates on
one empty line with its denominator floored at 1, yielding 0.6. -/
theorem empty_code_defaults (language : String) (cc : Option (ℚ × ℚ)) (mi : Option ℚ)
    (pp : Option ParseInfo) :
    get_code_quality_metrics "" language mi pp = ⟨none, none, none⟩
    ∧ (∃ a, assess_skills "" language ⟨cc, mi, pp, none⟩ = Except.ok a
        ∧ a.level = SkillLevel.BEGINNER ∧ a.score = 0.38)
    ∧ calculate_readability "" language = 0.6 := by
  have hmet : get_code_quality_metrics "" language mi pp = ⟨none, none, none⟩ := by
    rw [get_code_quality_metrics, if_pos (by decide)]
  refine ⟨hmet, ?_, ?_⟩
  · have h := assess_skills_eq_of_dict "" language ⟨cc, mi, pp, none⟩
      (some sample_feedback_list) (some sample_recommendations_list) rfl
    rw [hmet] at h
    have hlv : determine_skill_level (calculate_complexity "" language cc)
        ⟨none, none, none⟩
        (.dict (some sample_feedback_list) (some sample_recommendations_list))
        = SkillLevel.BEGINNER := by
      norm_num [determine_skill_level]
    rw [hlv] at h
    refine ⟨_, h, rfl, ?_⟩
    show calculate_skill_score SkillLevel.BEGINNER ⟨none, none, none⟩ = 0.38
    norm_num [calculate_skill_score, base_scores]
  · rw [calculate_readability_eval "" language 1 0 0 (by decide) (by decide) (by decide)]
    norm_num

/-- Claim C4 counterexample: a feedback collaborator whose response text parses
as a truthy non-object JSON value (for instance the JSON string "hi")
makes `assess_skills` raise an `AttributeError` at the
`ai_feedback.get("feedback", [])` lookup, which sits outside every `try`. -/
theorem assess_raises_on_truthy_nonobject_json :
    assess_skills "x = 1" "python"
      ⟨none, none, none, some (.returns (.jsonNonDict true))⟩
      = Except.error "AttributeError" := rfl

/-- Claim C4 amended: `assess_skills` returns a fully populated Assessment for
every code, language and collaborator behaviour except a collaborator
response that parses as a truthy non-object JSON value, in which case an
`AttributeError` propagates. -/
theorem assess_total_unless_truthy_nonobject (code language : String) (env : AssessEnv)
    (h : env.client ≠ some (.returns (.jsonNonDict true))) :
    ∃ a, assess_skills code language env = Except.ok a := by
  rcases hfb : get_ai_feedback env.client with ⟨fb, recs⟩ | t
  · exact ⟨_, assess_skills_eq_of_dict code language env fb recs hfb⟩
  · cases t
    · exact ⟨_, assess_skills_eq_of_falsy code language env hfb⟩
    · exact absurd (get_ai_feedback_nonDict env.client true hfb) h

/-- Witness for the amended C4 at a concrete input. -/
theorem assess_total_unless_truthy_nonobject_witness :
    ∃ a, assess_skills "x = 1" "python" ⟨none, none, none, none⟩ = Except.ok a :=
  assess_total_unless_truthy_nonobject "x = 1" "python" ⟨none, none, none, none⟩
    (by simp)

/-- Claim C6 counterexample: for the JavaScript input consisting of the single
line "// x" — a line starting with JavaScript's comment marker `//` — the
readability computed by the code differs from the claimed formula that
counts lines starting with the given language's comment marker: the code
counts lines starting with `#` regardless of language. -/
theorem readability_language_marker_cex :
    calculate_readability "// x" "javascript"
      ≠ readabilitySpec (languageCommentMarker "javascript") "// x" := by
  rw [calculate_readability_eval "// x" "javascript" 1 4 0
        (by decide) (by decide) (by decide),
      show languageCommentMarker "javascript" = ['/', '/'] from by decide,
      readabilitySpec_eval ['/', '/'] "// x" 1 4 1
        (by decide) (by decide) (by decide)]
  norm_num

/-- Claim C6 amended: for every code and language input, readability equals
`0.6*max(0, 1 - avgLineLength/100) + 0.4*min(1, commentLineRatio*3)` where
the comment-line count counts lines whose stripped content starts with
`#` irrespective of the language argument (denominator floored at 1); for
a 1-line, no-comment, 50-character input the result is exactly 0.3. -/
theorem readability_hash_marker :
    (∀ (code language : String),
      calculate_readability code language = readabilitySpec ['#'] code)
    ∧ calculate_readability "aaaaaaaaaaaaaaaaaaaaaaaaaaaaaaaaaaaaaaaaaaaaaaaaaa"
        "python" = 0.3 := by
  constructor
  · intro code language
    rfl
  · rw [calculate_readability_eval _ "python" 1 50 0 (by decide) (by decide) (by decide)]
    norm_num

/-- Claim C7: for Python input with a successful parse, modularity equals
`0.4*min(1, functionCount/10) + 0.6*max(0, 1 - avgFunctionLines/50)`;
non-Python input and failed parses yield 0.5; and 10 functions of 50
lines each give exactly 0.4. -/
theorem modularity_formula :
    (∀ (code language : String) (p : ParseInfo), pyLowerStr language = "python" →
      calculate_modularity code language (some p) = modularitySpec p.funcSizes)
    ∧ (∀ (code language : String) (pp : Option ParseInfo),
        pyLowerStr language ≠ "python" → calculate_modularity code language pp = 0.5)
    ∧ (∀ (code language : String), pyLowerStr language = "python" →
        calculate_modularity code language none = 0.5)
    ∧ calculate_modularity "def f0(): pass" "python"
        (some ⟨List.replicate 10 50⟩) = 0.4 := by
  have hmain : ∀ (code language : String) (p : ParseInfo),
      pyLowerStr language = "python" →
      calculate_modularity code language (some p) = modularitySpec p.funcSizes := by
    intro code language p h
    simp only [calculate_modularity, h, if_true, if_neg (pyLines_length_ne_zero code)]
    rw [modularitySpec]
    ring
  refine ⟨hmain, ?_, ?_, ?_⟩
  · intro code language pp h
    simp only [calculate_modularity]
    rw [if_neg h]
  · intro code language h
    simp only [calculate_modularity]
    rw [if_pos h]
  · rw [hmain "def f0(): pass" "python" ⟨List.replicate 10 50⟩ (by decide),
        modularitySpec]
    norm_num

/-- Witness for C7 at concrete inputs. -/
theorem modularity_formula_witness :
    calculate_modularity "x" "Python" (some ⟨[30]⟩) = modularitySpec [30]
    ∧ calculate_modularity "x" "java" (some ⟨[30]⟩) = 0.5
    ∧ calculate_modularity "x" "python" none = 0.5 :=
  ⟨modularity_formula.1 "x" "Python" ⟨[30]⟩ (by decide),
   modularity_formula.2.1 "x" "java" (some ⟨[30]⟩) (by decide),
   modularity_formula.2.2.1 "x" "python" (by decide)⟩

/-- Claim C8: with no feedback collaborator, `assess_skills` returns verbatim
the canned 5-item feedback and 3-item recommendation lists; with a
collaborator that raises on invocation it returns the fixed fallback pair
whose feedback begins "Error generating feedback.". -/
theorem canned_feedback_behaviour :
    (∀ (code language : String) (cc : Option (ℚ × ℚ)) (mi : Option ℚ)
        (pp : Option ParseInfo),
      ∃ a, assess_skills code language ⟨cc, mi, pp, none⟩ = Except.ok a
        ∧ a.feedback = sample_feedback_list
        ∧ a.recommendations = sample_recommendations_list)
    ∧ sample_feedback_list.length = 5
    ∧ sample_recommendations_list.length = 3
    ∧ (∀ (code language : String) (cc : Option (ℚ × ℚ)) (mi : Option ℚ)
        (pp : Option ParseInfo),
      ∃ a, assess_skills code language ⟨cc, mi, pp, some .raises⟩ = Except.ok a
        ∧ a.feedback = error_feedback_list
        ∧ a.recommendations = error_recommendations_list)
    ∧ pyStartsWith (error_feedback_list.headI).data
        (String.data "Error generating feedback.") = true := by
  refine ⟨?_, rfl, rfl, ?_, by decide⟩
  · intro code language cc mi pp
    exact ⟨_, assess_skills_eq_of_dict code language ⟨cc, mi, pp, none⟩
      (some sample_feedback_list) (some sample_recommendations_list) rfl, rfl, rfl⟩
  · intro code language cc mi pp
    exact ⟨_, assess_skills_eq_of_dict code language ⟨cc, mi, pp, some .raises⟩
      (some error_feedback_list) (some error_recommendations_list) rfl, rfl, rfl⟩

/-- Claim C9: for whitespace-only code the quality-metrics mapping is empty;
the level step then falls back to maintainability 0 and readability 0.5
(composite 0.2, hence Beginner) while the score step falls back to
maintainability 50 and readability 0.5 (hence score 0.38) — two different
defaults for the same missing metric — and with no feedback collaborator
`assess_skills` returns level Beginner with score exactly 0.38. -/
theorem whitespace_code_defaults (code language : String) (cc : Option (ℚ × ℚ))
    (mi : Option ℚ) (pp : Option ParseInfo) (hw : pyStrip code.data = []) :
    get_code_quality_metrics code language mi pp = ⟨none, none, none⟩
    ∧ (∀ (c : ℚ × ℚ) (fb : AiFeedbackValue),
        determine_skill_level c ⟨none, none, none⟩ fb = SkillLevel.BEGINNER)
    ∧ calculate_skill_score SkillLevel.BEGINNER ⟨none, none, none⟩ = 0.38
    ∧ (∃ a, assess_skills code language ⟨cc, mi, pp, none⟩ = Except.ok a
        ∧ a.level = SkillLevel.BEGINNER ∧ a.score = 0.38) := by
  have hmet : get_code_quality_metrics code language mi pp = ⟨none, none, none⟩ := by
    rw [get_code_quality_metrics, if_pos hw]
  have hlv : ∀ (c : ℚ × ℚ) (fb : AiFeedbackValue),
      determine_skill_level c ⟨none, none, none⟩ fb = SkillLevel.BEGINNER := by
    intro c fb
    norm_num [determine_skill_level]
  have hsc : calculate_skill_score SkillLevel.BEGINNER ⟨none, none, none⟩ = 0.38 := by
    norm_num [calculate_skill_score, base_scores]
  refine ⟨hmet, hlv, hsc, ?_⟩
  have h := assess_skills_eq_of_dict code language ⟨cc, mi, pp, none⟩
    (some sample_feedback_list) (some sample_recommendations_list) rfl
  rw [hmet, hlv, hsc] at h
  exact ⟨_, h, rfl, rfl⟩

/-- Witness for C9 at a concrete whitespace-only input. -/
theorem whitespace_code_defaults_witness :
    get_code_quality_metrics " " "c" (some 7) none = ⟨none, none, none⟩
    ∧ (∃ a, assess_skills " " "c" ⟨none, some 7, none, none⟩ = Except.ok a
        ∧ a.level = SkillLevel.BEGINNER ∧ a.score = 0.38) := by
  obtain ⟨h1, -, -, h4⟩ :=
    whitespace_code_defaults " " "c" none (some 7) none (by decide)
  exact ⟨h1, h4⟩

end SkillSpring
